import Mathlib

/-!
Verification of the SentinelOne PowerQuery backend
(src/sigma/backends/sentinelone_pq/sentinelone_pq.py).

The backend is a configuration table of rendering tokens and templates
together with three methods of its own: finalize_query_default,
build_condition and escape_value.  Those three methods and every
configuration value they use are embedded here directly from the source.
The generic conversion machinery of the base TextQueryBackend class
(wildcard classification of string values, OR-to-IN folding, field
quoting/escaping) is not part of this repository; where a claim depends
on it, the missing machinery is modelled from the spec, instantiated
with the configuration values declared in the source, and each such
definition carries a doc comment starting with Modelled from the spec.
-/

namespace SentinelOnePQ

/-- Configuration value token_separator from the source: a single space. -/
def token_separator : String := " "

/-- Configuration value or_token from the source. -/
def or_token : String := "or"

/-- Configuration value and_token from the source. -/
def and_token : String := "and"

/-- Configuration value not_token from the source. -/
def not_token : String := "not"

/-- Configuration value eq_token from the source. -/
def eq_token : String := "="

/-- Configuration value str_quote from the source: a double quote. -/
def str_quote : String := "\""

/-- Configuration value escape_char from the source: a backslash. -/
def escape_char : String := "\\"

/-- Configuration value wildcard_multi from the source. -/
def wildcard_multi : String := "*"

/-- Configuration value wildcard_single from the source. -/
def wildcard_single : String := "*"

/-- Configuration value field_quote from the source: a single-quote character. -/
def field_quote : String := String.singleton (Char.ofNat 39)

/-- Configuration value field_quote_pattern_negation from the source. -/
def field_quote_pattern_negation : Bool := false

/-- Configuration value field_escape from the source: a backslash. -/
def field_escape : String := "\\"

/-- Configuration value field_escape_quote from the source. -/
def field_escape_quote : Bool := true

/-- Configuration value convert_or_as_in from the source. -/
def convert_or_as_in : Bool := true

/-- Configuration value convert_and_as_in from the source. -/
def convert_and_as_in : Bool := false

/-- Configuration value in_expressions_allow_wildcards from the source. -/
def in_expressions_allow_wildcards : Bool := false

/-- Configuration value or_in_operator from the source. -/
def or_in_operator : String := "in"

/-- Configuration value list_separator from the source. -/
def list_separator : String := ","

/-- Template field_in_list_expression from the source, literally
"{field} {op} ({list})", embedded as the substitution function. -/
def field_in_list_expression (field op lst : String) : String :=
  field ++ " " ++ op ++ " (" ++ lst ++ ")"

/-- Template compare_op_expression from the source, literally
"{field} {operator} {value}", embedded as the substitution function. -/
def compare_op_expression (field op value : String) : String :=
  field ++ " " ++ op ++ " " ++ value

/-- Template startswith_expression from the source, literally
"{field} contains {value}". -/
def startswith_expression (field value : String) : String :=
  field ++ " contains " ++ value

/-- Template endswith_expression from the source, literally
"{field} contains {value}". -/
def endswith_expression (field value : String) : String :=
  field ++ " contains " ++ value

/-- Template contains_expression from the source, literally
"{field} contains {value}". -/
def contains_expression (field value : String) : String :=
  field ++ " contains " ++ value

/-- Template re_expression from the source, literally
the text {field} matches "{regex}". -/
def re_expression (field regex : String) : String :=
  field ++ " matches \"" ++ regex ++ "\""

/-- Template field_exists_expression from the source, literally
the text {field} matches "\.*" (the Python source spells the
backslash as an escape, so the emitted pattern is backslash-dot-star). -/
def field_exists_expression (field : String) : String :=
  field ++ " matches \"\\.*\""

/-- Template field_not_exists_expression from the source, literally
the text not ({field} matches "\.*"). -/
def field_not_exists_expression (field : String) : String :=
  "not (" ++ field ++ " matches \"\\.*\")"

/-- Template field_null_expression from the source, literally
the text not ({field} matches "\.*"). -/
def field_null_expression (field : String) : String :=
  "not (" ++ field ++ " matches \"\\.*\")"

/-- A piece of a Sigma string value: a plain run of characters or a
wildcard marker.  Modelled from the spec: a string literal may contain
wildcard markers; the external SigmaString type stores the value as a
sequence of plain parts and special wildcard characters. -/
inductive SPart where
  | plain (s : String)
  | wildMulti
  | wildSingle
deriving DecidableEq

/-- Rendering of one part as output text: wildcard markers render as the
configured wildcard tokens (both are "*" in the source). -/
def SPart.toStr : SPart → String
  | .plain s => s
  | .wildMulti => wildcard_multi
  | .wildSingle => wildcard_single

/-- True on wildcard markers. -/
def SPart.isWildcard : SPart → Bool
  | .plain _ => false
  | .wildMulti => true
  | .wildSingle => true

/-- A literal value attached to a field-equals leaf, covering the cases
escape_value in the source distinguishes: a SigmaString (a sequence of
parts), a SigmaRegularExpression (whose field and regex attributes the
source reads), and any other value, which the source renders through
the default Python string conversion str(value); num carries an integer
whose default conversion is its decimal text, and other carries the
default conversion text of an arbitrary unsupported value. -/
inductive SigmaValue where
  | str (parts : List SPart)
  | regex (field : String) (regex : String)
  | num (n : Int)
  | other (pyText : String)
deriving DecidableEq

/-- The condition tree, with the attributes the source accesses on each
node class: a NOT node has a single subcondition, AND and OR nodes have
a list of subconditions, and a field-equals leaf has a field and a value. -/
inductive Condition where
  | and (subconditions : List Condition)
  | or (subconditions : List Condition)
  | not (subcondition : Condition)
  | fieldEquals (field : String) (value : SigmaValue)

/-- escape_value from the source.  A SigmaString renders as str_quote,
then the parts of the value joined by escape_char, then str_quote
(the Python code joins the iterated value with the escape character;
iteration of the external SigmaString type is modelled from the spec as
yielding the parts of the value).  A regular expression renders through
re_expression with the characters of its regex joined by escape_char
(Python str.join iterates the characters of a string).  Any other value
falls through to str(value): the default conversion text, never an error. -/
def escape_value : SigmaValue → String
  | .str parts => str_quote ++ String.intercalate escape_char (parts.map SPart.toStr) ++ str_quote
  | .regex fld r => re_expression fld (String.intercalate escape_char (r.data.map String.singleton))
  | .num n => toString n
  | .other pyText => pyText

mutual

/-- build_condition from the source, on a single condition item: a NOT
renders as the not token, a space, and the subcondition in parentheses
(unconditionally, whatever the subcondition is); AND and OR render their
subconditions joined by the and/or token surrounded by single spaces,
with no parentheses added; a field-equals leaf renders through
compare_op_expression with eq_token and the escaped value. -/
def build_condition : Condition → String
  | .not c => not_token ++ " (" ++ build_condition c ++ ")"
  | .and cs => String.intercalate (" " ++ and_token ++ " ") (build_condition_seq cs)
  | .or cs => String.intercalate (" " ++ or_token ++ " ") (build_condition_seq cs)
  | .fieldEquals f v => compare_op_expression f eq_token (escape_value v)

/-- The renderings of a list of condition items, in order. -/
def build_condition_seq : List Condition → List String
  | [] => []
  | c :: cs => build_condition c :: build_condition_seq cs

end

/-- build_condition from the source, on a list argument: a one-element
list renders as its sole element, and any other list renders as the
elements joined by token_separator and wrapped in one pair of parentheses. -/
def build_condition_list : List Condition → String
  | [c] => build_condition c
  | cs => "(" ++ String.intercalate token_separator (build_condition_seq cs) ++ ")"

/-- finalize_query_default from the source, for the branch in which the
rule condition is a condition tree (the string-condition branch delegates
to the convert method of the external base class and is not modelled):
the compiled condition text is appended to the incoming query accumulator,
and when the rule has a non-empty fields list the text " | columns "
followed by the comma-joined field names is appended after it. -/
def finalize_query_default (query : String) (conds : List Condition) (fields : List String) : String :=
  let q := query ++ build_condition_list conds
  if fields.isEmpty then q else q ++ " | columns " ++ String.intercalate "," fields

/-- Modelled from the spec: the base class wraps a string value in the
configured quote character; with the add_escaped and filter_chars
configuration values of the source both empty, no character of the value
is escaped or filtered. -/
def convert_value_str (s : String) : String :=
  str_quote ++ s ++ str_quote

/-- Modelled from the spec: the classification of a string value by the
position of its wildcard markers, missing from the source because it
lives in the external base class.  A value of the shape x* is a prefix
match rendered through startswith_expression, *x is a suffix match
rendered through endswith_expression, *x* is a substring match rendered
through contains_expression, each with the wildcard markers stripped and
the remaining text quoted; a plain value is an equality; any other shape
falls back to an equality on the rendered parts. -/
def convert_condition_field_eq_val_str (field : String) (parts : List SPart) : String :=
  match parts with
  | [.plain s, .wildMulti] => startswith_expression field (convert_value_str s)
  | [.wildMulti, .plain s] => endswith_expression field (convert_value_str s)
  | [.wildMulti, .plain s, .wildMulti] => contains_expression field (convert_value_str s)
  | [.plain s] => compare_op_expression field eq_token (convert_value_str s)
  | ps => compare_op_expression field eq_token
      (convert_value_str (String.join (ps.map SPart.toStr)))

/-- Modelled from the spec: the rendering of a field-equals leaf in the
conversion path of the external base class, dispatching on the type of
the value. -/
def convert_field_eq (field : String) : SigmaValue → String
  | .str parts => convert_condition_field_eq_val_str field parts
  | .regex _ r => re_expression field r
  | .num n => compare_op_expression field eq_token (toString n)
  | .other pyText => compare_op_expression field eq_token pyText

/-- The field and the string parts of a plain field-equals leaf, and
none on any other condition. -/
def fieldEqStr : Condition → Option (String × List SPart)
  | .fieldEquals f (.str parts) => some (f, parts)
  | _ => none

/-- True when a part list contains no wildcard marker. -/
def noWildcards (parts : List SPart) : Bool :=
  parts.all (fun p => !p.isWildcard)

/-- True when a condition is a field-equals on the given field whose
string value is free of wildcards (or wildcards are allowed by the
configuration). -/
def child_fits (f : String) (c2 : Condition) : Bool :=
  match fieldEqStr c2 with
  | some (f2, parts2) =>
    f2 == f && (noWildcards parts2 || in_expressions_allow_wildcards)
  | none => false

/-- Modelled from the spec: the decision whether a boolean group folds
into a single list-membership form, missing from the source because it
lives in the external base class.  The group must be an OR group when
convert_or_as_in is set (an AND group would need convert_and_as_in,
which the source disables); every child must be a field-equals on a
string value; all children must name the same field; and no value may
contain a wildcard unless in_expressions_allow_wildcards is set (the
source disables it). -/
def decide_convert_condition_as_in (isOr : Bool) (cs : List Condition) : Bool :=
  (if isOr then convert_or_as_in else convert_and_as_in) &&
  match cs with
  | [] => false
  | c :: rest =>
    match fieldEqStr c with
    | none => false
    | some (f, parts) =>
      (noWildcards parts || in_expressions_allow_wildcards) && rest.all (child_fits f)

/-- The field named by the first child of a foldable group. -/
def in_field : List Condition → String
  | (.fieldEquals f _) :: _ => f
  | _ => ""

/-- The rendered member values of a foldable group, in order. -/
def in_values : List Condition → List String
  | [] => []
  | (.fieldEquals _ (.str parts)) :: rest =>
      convert_value_str (String.join (parts.map SPart.toStr)) :: in_values rest
  | _ :: rest => in_values rest

/-- Modelled from the spec: the list-membership form a foldable group
collapses to, rendered through field_in_list_expression with
or_in_operator and list_separator from the source. -/
def as_in_expression (cs : List Condition) : String :=
  field_in_list_expression (in_field cs) or_in_operator
    (String.intercalate list_separator (in_values cs))

mutual

/-- Modelled from the spec: the recursive n-ary conversion path of the
external base class, instantiated with the configuration of the source.
AND and OR groups render their children joined with the and/or token and
are wrapped in parentheses unconditionally (parenthesize is set in the
source), except that a group satisfying decide_convert_condition_as_in
folds into as_in_expression; a NOT prefixes the not token and a space
directly to its operand, so an atomic operand gets no parentheses while
a compound operand keeps exactly the one pair of parentheses its own
group rendering carries, giving the spec form not (A and B); a leaf
renders through convert_field_eq. -/
def convert_condition : Condition → String
  | .not c => not_token ++ " " ++ convert_condition c
  | .and cs =>
    if decide_convert_condition_as_in false cs then as_in_expression cs
    else "(" ++ String.intercalate (" " ++ and_token ++ " ") (convert_condition_seq cs) ++ ")"
  | .or cs =>
    if decide_convert_condition_as_in true cs then as_in_expression cs
    else "(" ++ String.intercalate (" " ++ or_token ++ " ") (convert_condition_seq cs) ++ ")"
  | .fieldEquals f v => convert_field_eq f v

/-- The conversions of a list of conditions, in order. -/
def convert_condition_seq : List Condition → List String
  | [] => []
  | c :: cs => convert_condition c :: convert_condition_seq cs

end

/-- A word character in the sense of the regex class backslash-w,
restricted to ASCII: a letter, a digit or an underscore.  (Python
matches word characters beyond ASCII as well; every input decided here
is ASCII, where the two notions coincide.) -/
def isWordChar (c : Char) : Bool :=
  c.isAlpha || c.isDigit || c == '_'

/-- The regex field_quote_pattern of the source, anchored at both ends:
one word character followed by one or more literal dot characters. -/
def field_quote_pattern_match (f : String) : Bool :=
  match f.data with
  | [] => false
  | c :: rest => isWordChar c && !rest.isEmpty && rest.all (· == '.')

/-- A whitespace character in the sense of the regex class backslash-s
(the field_escape_pattern of the source), restricted to ASCII: space,
tab, newline, carriage return, vertical tab or form feed. -/
def isPySpace (c : Char) : Bool :=
  c == ' ' || c == '\t' || c == '\n' || c == '\r' ||
  c == Char.ofNat 11 || c == Char.ofNat 12

/-- Modelled from the spec: the escaping of a field name in the external
base class, instantiated with the source configuration: every character
matching field_escape_pattern (whitespace), and — because
field_escape_quote is set — every occurrence of the field_quote
character, is prefixed with the field_escape character (a backslash). -/
def escape_field_chars (f : String) : String :=
  String.mk (f.data.foldr
    (fun c acc =>
      if isPySpace c || (field_escape_quote && c == Char.ofNat 39) then
        '\\' :: c :: acc
      else c :: acc) [])

/-- Modelled from the spec: the quoting of a field name in the external
base class, instantiated with the source configuration: the escaped name
is wrapped in the field_quote character exactly when the
field_quote_pattern match, with its polarity flipped when
field_quote_pattern_negation is set (the source leaves it unset),
decides so. -/
def quote_field (f : String) : String :=
  let escaped := escape_field_chars f
  let m := field_quote_pattern_match f
  if (if field_quote_pattern_negation then !m else m) then
    field_quote ++ escaped ++ field_quote
  else escaped

/-- The inverse of backslash escaping: a backslash makes the following
character literal; all other characters pass through. -/
def unescape : List Char → List Char
  | [] => []
  | c :: rest =>
    if c = '\\' then
      match rest with
      | [] => []
      | d :: rest2 => d :: unescape rest2
    else c :: unescape rest

/-- The inverse of backslash escaping, on strings. -/
def unescapeStr (s : String) : String :=
  String.mk (unescape s.data)

/-- The escaping the spec describes for string literals, written from
its words for comparison with escape_value: every quote and every
escape (backslash) character inside the literal is prefixed with a
backslash. -/
def spec_escape (s : String) : String :=
  String.mk (s.data.foldr
    (fun c acc => if c = '"' || c = '\\' then '\\' :: c :: acc else c :: acc) [])

/-- The rendering lists produced by build_condition_seq are exactly the
per-item renderings. -/
theorem build_condition_seq_eq_map (cs : List Condition) :
    build_condition_seq cs = cs.map build_condition := by
  induction cs with
  | nil => rfl
  | cons c cs ih => simp [build_condition_seq, ih]

/-- The conversion lists produced by convert_condition_seq are exactly the
per-item conversions. -/
theorem convert_condition_seq_eq_map (cs : List Condition) :
    convert_condition_seq cs = cs.map convert_condition := by
  induction cs with
  | nil => rfl
  | cons c cs ih => simp [convert_condition_seq, ih]

/-- Joining a one-element list is the element itself. -/
theorem string_join_singleton (v : String) : String.join [v] = v := by
  simp [String.join]

/-- Every same-field plain-string child satisfies the fold predicate. -/
theorem child_fits_map_plain (f : String) (vs : List String) :
    (vs.map fun v => Condition.fieldEquals f (.str [.plain v])).all (child_fits f) = true := by
  induction vs with
  | nil => rfl
  | cons v vs ih =>
      simp only [List.map_cons, List.all_cons, ih, Bool.and_true]
      simp [child_fits, fieldEqStr, noWildcards, SPart.isWildcard]

/-- The member values of a same-field plain-string group are the quoted
plain values, in order. -/
theorem in_values_map_plain (f : String) (vs : List String) :
    in_values (vs.map fun v => Condition.fieldEquals f (.str [.plain v])) =
      vs.map convert_value_str := by
  induction vs with
  | nil => rfl
  | cons v vs ih =>
      simp [in_values, SPart.toStr, ih, string_join_singleton]

/-- Unescaping steps over a backslash by taking the next character
literally. -/
theorem unescape_cons_backslash (c : Char) (l : List Char) :
    unescape ('\\' :: c :: l) = c :: unescape l := by
  rw [unescape.eq_def]
  simp

/-- Unescaping passes a non-backslash character through. -/
theorem unescape_cons_other (c : Char) (l : List Char) (h : ¬ c = '\\') :
    unescape (c :: l) = c :: unescape l := by
  rw [unescape.eq_def]
  simp [h]

/-- Unescaping a backslash-free character list is the identity. -/
theorem unescape_of_no_backslash (l : List Char) (h : l.all (· != '\\') = true) :
    unescape l = l := by
  induction l with
  | nil => rfl
  | cons c rest ih =>
      simp only [List.all_cons, Bool.and_eq_true, bne_iff_ne, ne_eq] at h
      rw [unescape_cons_other c rest h.1, ih h.2]

/-- Unescaping undoes the field-name escaping on backslash-free input. -/
theorem unescape_escape_field (l : List Char) (h : l.all (· != '\\') = true) :
    unescape (l.foldr
      (fun c acc =>
        if isPySpace c || (field_escape_quote && c == Char.ofNat 39) then
          '\\' :: c :: acc
        else c :: acc) []) = l := by
  induction l with
  | nil => rfl
  | cons c rest ih =>
      simp only [List.all_cons, Bool.and_eq_true, bne_iff_ne, ne_eq] at h
      rw [List.foldr_cons]
      by_cases hc : (isPySpace c || (field_escape_quote && c == Char.ofNat 39)) = true
      · rw [if_pos hc, unescape_cons_backslash, ih h.2]
      · rw [if_neg hc, unescape_cons_other c _ h.1, ih h.2]

/-- Claim C1: with an empty incoming query accumulator, the plain-mode
finalize step returns exactly the compiled boolean expression followed,
when the metadata fields list is non-empty, by " | columns " and the
comma-joined field names, and nothing is appended for an empty fields
list. -/
theorem finalize_appends_columns (conds : List Condition) (fields : List String)
    (h : fields ≠ []) :
    finalize_query_default "" conds fields =
      build_condition_list conds ++ " | columns " ++ String.intercalate "," fields
    ∧ finalize_query_default "" conds [] = build_condition_list conds := by
  constructor
  · simp [finalize_query_default, h]
  · simp [finalize_query_default]

/-- Witness for claim C1 on a concrete rule, with both a non-empty and
an empty fields list. -/
theorem finalize_appends_columns_witness :
    finalize_query_default "" [.fieldEquals "a" (.num 1)] ["ProcessName", "CommandLine"] =
      "a = 1 | columns ProcessName,CommandLine"
    ∧ finalize_query_default "" [.fieldEquals "a" (.num 1)] [] = "a = 1" := by
  have h := finalize_appends_columns [.fieldEquals "a" (.num 1)]
    ["ProcessName", "CommandLine"] (by decide)
  exact ⟨h.1.trans (by decide), h.2.trans (by decide)⟩

/-- Claim C3, counterexample: the source build_condition parenthesizes
the operand of a NOT even when the operand is an atomic field-equals, so
Not(FieldEquals(f,v)) renders as not (f = "v") and not as the claimed
form not f = "v" obtained by prefixing the not token without
parentheses. -/
theorem build_condition_not_atomic_counterexample :
    build_condition (.not (.fieldEquals "f" (.str [.plain "v"]))) = "not (f = \"v\")"
    ∧ build_condition (.not (.fieldEquals "f" (.str [.plain "v"]))) ≠
        not_token ++ " " ++ build_condition (.fieldEquals "f" (.str [.plain "v"])) := by
  constructor
  · decide
  · decide

/-- Claim C3, amended: the source build_condition renders every NOT as
the not token, a space, and the operand's rendering wrapped in
parentheses, for compound and atomic operands alike. -/
theorem build_condition_not_always_parens (c : Condition) :
    build_condition (.not c) = not_token ++ " (" ++ build_condition c ++ ")"
    ∧ build_condition (.not (.and [.fieldEquals "A" (.num 1), .fieldEquals "B" (.num 2)])) =
        "not (A = 1 and B = 2)"
    ∧ build_condition (.not (.fieldEquals "f" (.str [.plain "v"]))) = "not (f = \"v\")" := by
  refine ⟨?_, by decide, by decide⟩
  simp [build_condition]

/-- Claim C4, counterexample: the source build_condition joins the
children of an AND group without wrapping the group in parentheses, so
the claimed unconditional parenthesization of every AND/OR group does
not hold. -/
theorem build_condition_and_no_parens_counterexample :
    build_condition (.and [.fieldEquals "a" (.num 1), .fieldEquals "b" (.num 2)]) =
      "a = 1 and b = 2"
    ∧ build_condition (.and [.fieldEquals "a" (.num 1), .fieldEquals "b" (.num 2)]) ≠
      "(a = 1 and b = 2)" := by
  constructor
  · decide
  · decide

/-- Claim C4, amended: the source build_condition joins AND children
with the and token and OR children with the or token, each surrounded by
single spaces, adding no parentheses itself; parentheses arise only from
the NOT branch and from the multi-element list branch. -/
theorem build_condition_and_or_join (cs : List Condition) :
    build_condition (.and cs) =
      String.intercalate (" " ++ and_token ++ " ") (cs.map build_condition)
    ∧ build_condition (.or cs) =
      String.intercalate (" " ++ or_token ++ " ") (cs.map build_condition)
    ∧ build_condition (.or [.fieldEquals "a" (.num 1), .fieldEquals "b" (.num 2)]) =
      "a = 1 or b = 2" := by
  refine ⟨?_, ?_, by decide⟩
  · simp [build_condition, build_condition_seq_eq_map]
  · simp [build_condition, build_condition_seq_eq_map]

/-- Claim C7, counterexample: a field-equals leaf whose value is of a
type escape_value does not specially support is rendered through the
default Python string conversion and compilation succeeds, rather than
failing with an error: a leaf carrying an unsupported value whose
default conversion text is 1.5 renders as score = 1.5. -/
theorem escape_value_default_conversion_counterexample :
    build_condition (.fieldEquals "score" (.other "1.5")) = "score = 1.5"
    ∧ escape_value (.other "1.5") = "1.5"
    ∧ escape_value (.num 42) = "42" := by
  refine ⟨by decide, by decide, by decide⟩

/-- Claim C7, amended: for every field-equals leaf whose value is
neither a SigmaString nor a regular expression, escape_value falls back
to the default string conversion of the value and the leaf is rendered
with that text; no failure is raised (only an unknown condition-node
type raises in the source, not an unknown literal type). -/
theorem escape_value_default_fallback (f pyText : String) (n : Int) :
    escape_value (.other pyText) = pyText
    ∧ escape_value (.num n) = toString n
    ∧ build_condition (.fieldEquals f (.other pyText)) =
        f ++ " " ++ eq_token ++ " " ++ pyText := by
  refine ⟨rfl, rfl, ?_⟩
  simp [build_condition, compare_op_expression, escape_value]

/-- Intercalating a one-element list is the element itself. -/
theorem intercalate_singleton (sep a : String) : String.intercalate sep [a] = a := rfl

/-- Intercalating a two-element list places the separator between the
elements. -/
theorem intercalate_pair (sep a b : String) :
    String.intercalate sep [a, b] = a ++ sep ++ b := rfl

/-- An AND group never folds into a list-membership form, because the
source disables convert_and_as_in. -/
theorem decide_and_as_in_false (cs : List Condition) :
    decide_convert_condition_as_in false cs = false := by
  simp [decide_convert_condition_as_in, convert_and_as_in]

/-- Unescaping undoes the field-name escaping on backslash-free names. -/
theorem unescape_escape_field_chars (f : String)
    (h : f.data.all (· != '\\') = true) :
    unescapeStr (escape_field_chars f) = f := by
  have h2 := unescape_escape_field f.data h
  show String.mk (unescape ((escape_field_chars f).data)) = f
  have h3 : (escape_field_chars f).data = f.data.foldr
      (fun c acc =>
        if isPySpace c || (field_escape_quote && c == Char.ofNat 39) then
          '\\' :: c :: acc
        else c :: acc) [] := rfl
  rw [h3, h2]

/-- Claim C2: an OR group whose children are all field-equals on the
same field with plain wildcard-free string values folds into the single
list-membership form field in (v1,v2,...); an AND group of the same
shape never folds (convert_and_as_in is unset); a group whose first
value carries a wildcard never folds; a group whose branches target two
different fields never folds; in every unfolded case each branch
compiles independently and the branches are joined by the or
(respectively and) token. -/
theorem or_as_in_folding (f g s t : String) (ss : List String) (cs : List Condition)
    (hfg : f ≠ g) :
    convert_condition (.or ((s :: ss).map fun v => .fieldEquals f (.str [.plain v]))) =
      field_in_list_expression f or_in_operator
        (String.intercalate list_separator ((s :: ss).map convert_value_str))
    ∧ convert_condition (.and ((s :: ss).map fun v => .fieldEquals f (.str [.plain v]))) =
      "(" ++ String.intercalate (" " ++ and_token ++ " ")
        ((s :: ss).map fun v => convert_condition (.fieldEquals f (.str [.plain v]))) ++ ")"
    ∧ convert_condition (.or (.fieldEquals f (.str [.plain s, .wildMulti]) :: cs)) =
      "(" ++ String.intercalate (" " ++ or_token ++ " ")
        ((Condition.fieldEquals f (.str [.plain s, .wildMulti]) :: cs).map convert_condition) ++ ")"
    ∧ convert_condition (.or [.fieldEquals f (.str [.plain s]), .fieldEquals g (.str [.plain t])]) =
      "(" ++ convert_condition (.fieldEquals f (.str [.plain s])) ++ " " ++ or_token ++ " " ++
        convert_condition (.fieldEquals g (.str [.plain t])) ++ ")" := by
  refine ⟨?_, ?_, ?_, ?_⟩
  · have hdec : decide_convert_condition_as_in true
        (Condition.fieldEquals f (.str [.plain s]) :: ss.map fun v =>
          Condition.fieldEquals f (.str [.plain v])) = true := by
      simp [decide_convert_condition_as_in, convert_or_as_in, fieldEqStr, noWildcards,
        SPart.isWildcard, in_expressions_allow_wildcards, child_fits_map_plain]
    simp only [List.map_cons]
    simp [convert_condition, hdec, as_in_expression, in_field, in_values,
      in_values_map_plain, string_join_singleton, SPart.toStr]
  · simp [convert_condition, decide_and_as_in_false, convert_condition_seq_eq_map,
      List.map_map, Function.comp_def]
  · have hdec : decide_convert_condition_as_in true
        (Condition.fieldEquals f (.str [.plain s, .wildMulti]) :: cs) = false := by
      simp [decide_convert_condition_as_in, fieldEqStr, noWildcards,
        SPart.isWildcard, in_expressions_allow_wildcards]
    simp [convert_condition, hdec, convert_condition_seq_eq_map]
  · have hgf : (g == f) = false := beq_eq_false_iff_ne.mpr (Ne.symm hfg)
    have hdec : decide_convert_condition_as_in true
        [Condition.fieldEquals f (.str [.plain s]),
          Condition.fieldEquals g (.str [.plain t])] = false := by
      simp [decide_convert_condition_as_in, fieldEqStr, noWildcards,
        SPart.isWildcard, in_expressions_allow_wildcards, child_fits, hgf]
    simp [convert_condition, hdec, convert_condition_seq, intercalate_pair,
      String.append_assoc]

/-- Witness for claim C2: a three-value same-field OR folds to the IN
form of the spec example, and a two-field OR stays an or-join. -/
theorem or_as_in_folding_witness :
    convert_condition (.or ((["a", "b", "c"]).map fun v =>
      .fieldEquals "f" (.str [.plain v]))) = "f in (\"a\",\"b\",\"c\")"
    ∧ convert_condition (.or [.fieldEquals "f" (.str [.plain "a"]),
        .fieldEquals "g" (.str [.plain "b"])]) = "(f = \"a\" or g = \"b\")" := by
  have h := or_as_in_folding "f" "g" "a" "b" ["b", "c"] [] (by decide)
  exact ⟨h.1.trans (by decide), (h.2.2.2).trans (by decide)⟩

/-- Claim C5: a string value carrying a wildcard marker at its end
(prefix match), its start (suffix match), or both ends (pure substring
match) renders as the field, the contains keyword, and the quoted text
with the markers stripped — the three match templates of the source are
all the same contains template, so the emitted text never carries the
marker. -/
theorem wildcard_matches_render_contains (f s : String) :
    convert_condition (.fieldEquals f (.str [.plain s, .wildMulti])) =
      contains_expression f (convert_value_str s)
    ∧ convert_condition (.fieldEquals f (.str [.wildMulti, .plain s])) =
      contains_expression f (convert_value_str s)
    ∧ convert_condition (.fieldEquals f (.str [.wildMulti, .plain s, .wildMulti])) =
      contains_expression f (convert_value_str s)
    ∧ contains_expression f (convert_value_str s) =
      f ++ " contains " ++ str_quote ++ s ++ str_quote := by
  refine ⟨?_, ?_, ?_, ?_⟩
  · simp [convert_condition, convert_field_eq, convert_condition_field_eq_val_str,
      startswith_expression, contains_expression]
  · simp [convert_condition, convert_field_eq, convert_condition_field_eq_val_str,
      endswith_expression, contains_expression]
  · simp [convert_condition, convert_field_eq, convert_condition_field_eq_val_str]
  · simp [contains_expression, convert_value_str, String.append_assoc]

/-- Claim C6: a field-presence check renders as the field name followed
by the text matches "\.*", the absence and the null checks render as
the same test wrapped in not (...), and the sentinel regex text
backslash-dot-star occurs verbatim inside both renderings. -/
theorem existence_checks_sentinel (f : String) :
    field_exists_expression f = f ++ " matches \"\\.*\""
    ∧ field_not_exists_expression f = "not (" ++ field_exists_expression f ++ ")"
    ∧ field_null_expression f = field_not_exists_expression f
    ∧ (∃ pre post, field_exists_expression f = pre ++ "\\.*" ++ post)
    ∧ (∃ pre post, field_not_exists_expression f = pre ++ "\\.*" ++ post) := by
  refine ⟨rfl, ?_, rfl, ?_, ?_⟩
  · have hsplit : (" matches \"\\.*\"" ++ ")" : String) = " matches \"\\.*\")" := rfl
    simp [field_not_exists_expression, field_exists_expression, String.append_assoc,
      ← hsplit]
  · refine ⟨f ++ " matches \"", "\"", ?_⟩
    have h1 : (" matches \"" ++ "\\.*" ++ "\"" : String) = " matches \"\\.*\"" := rfl
    simp [field_exists_expression, String.append_assoc, ← h1]
  · refine ⟨"not (" ++ f ++ " matches \"", "\")", ?_⟩
    have h1 : (" matches \"" ++ "\\.*" ++ "\")" : String) = " matches \"\\.*\")" := rfl
    simp [field_not_exists_expression, String.append_assoc, ← h1]

/-- Claim C8, counterexample: escape_value does not backslash-escape the
quote character inside a string literal: the literal holding the three
characters a, quote, b renders with the quote passed through verbatim,
not in the backslash-escaped form the claim describes (spec_escape). -/
theorem escape_value_no_quote_escaping_counterexample :
    escape_value (.str [.plain "a\"b"]) = "\"a\"b\""
    ∧ escape_value (.str [.plain "a\"b"]) ≠ str_quote ++ spec_escape "a\"b" ++ str_quote := by
  refine ⟨by decide, by decide⟩

/-- Claim C8, amended: a single-part string literal is wrapped in double
quotes with its content passed through unchanged — quote and escape
characters inside it are not escaped — and the inverse unescape
therefore reproduces the original exactly for every literal free of the
escape (backslash) character, in particular for literals containing a
quote character. -/
theorem escape_value_quotes_verbatim (s : String)
    (hnb : s.data.all (· != '\\') = true) :
    escape_value (.str [.plain s]) = str_quote ++ s ++ str_quote
    ∧ unescapeStr s = s := by
  constructor
  · simp [escape_value, SPart.toStr, intercalate_singleton]
  · show String.mk (unescape s.data) = s
    rw [unescape_of_no_backslash s.data hnb]

/-- Witness for claim C8 on the quote-containing literal a, quote, b. -/
theorem escape_value_quotes_verbatim_witness :
    escape_value (.str [.plain "a\"b"]) = str_quote ++ "a\"b" ++ str_quote
    ∧ unescapeStr "a\"b" = "a\"b" :=
  escape_value_quotes_verbatim "a\"b" (by decide)

/-- Claim C9, counterexample: the field name my field matches no
simple-identifier pattern (it contains a space, and it also fails the
configured quote pattern), so the claim requires it to be wrapped in
single quotes; the code instead leaves it unquoted — quoting is applied
on a pattern match because field_quote_pattern_negation is unset — and
only backslash-escapes the space, so the output begins with the letter
m rather than with the quote character. -/
theorem quote_field_no_quotes_counterexample :
    quote_field "my field" = "my\\ field"
    ∧ field_quote_pattern_match "my field" = false
    ∧ (quote_field "my field").data.head? ≠ field_quote.data.head? := by
  refine ⟨by decide, by decide, by decide⟩

/-- Claim C9, amended: the rendered field name is wrapped in the single
quote character exactly when the name matches the configured pattern
(one word character followed by one or more dots) — the unset negation
flag makes quoting fire on a match, the reverse of the direction the
claim states — and every whitespace character (and quote character,
since field_escape_quote is set) in the name is backslash-escaped, an
escaping the inverse unescape undoes on backslash-free names. -/
theorem quote_field_on_pattern_match (f : String)
    (hnb : f.data.all (· != '\\') = true) :
    quote_field f = (if field_quote_pattern_match f then
        field_quote ++ escape_field_chars f ++ field_quote
      else escape_field_chars f)
    ∧ unescapeStr (escape_field_chars f) = f := by
  constructor
  · simp [quote_field, field_quote_pattern_negation]
  · exact unescape_escape_field_chars f hnb

/-- Witness for claim C9 on the concrete field name my field. -/
theorem quote_field_on_pattern_match_witness :
    quote_field "my field" = (if field_quote_pattern_match "my field" then
        field_quote ++ escape_field_chars "my field" ++ field_quote
      else escape_field_chars "my field")
    ∧ unescapeStr (escape_field_chars "my field") = "my field" :=
  quote_field_on_pattern_match "my field" (by decide)

/-- Claim C10: a one-element list given to build_condition renders as
its sole element with no surrounding parentheses, and a list of two or
more elements renders as the elements' renderings joined by the token
separator (a single space) and wrapped in one pair of parentheses. -/
theorem build_condition_list_grouping (c c1 c2 : Condition) (cs : List Condition) :
    build_condition_list [c] = build_condition c
    ∧ build_condition_list (c1 :: c2 :: cs) =
      "(" ++ String.intercalate token_separator
        ((c1 :: c2 :: cs).map build_condition) ++ ")" := by
  constructor
  · rfl
  · simp [build_condition_list, build_condition_seq_eq_map]

example : build_condition_list [.fieldEquals "a" (.num 1), .fieldEquals "b" (.num 2)] =
    "(a = 1 b = 2)" := by decide

example : convert_condition (.and [.fieldEquals "ProcessName" (.str [.plain "powershell.exe"]),
    .or [.fieldEquals "CommandLine" (.str [.wildMulti, .plain "-enc", .wildMulti]),
      .fieldEquals "CommandLine" (.str [.wildMulti, .plain "-e ", .wildMulti])]]) =
    "(ProcessName = \"powershell.exe\" and (CommandLine contains \"-enc\" or CommandLine contains \"-e \"))" := by
  decide

example : convert_condition (.not (.and [.fieldEquals "a" (.num 1), .fieldEquals "b" (.num 2)])) =
    "not (a = 1 and b = 2)" := by decide

example : convert_condition (.not (.fieldEquals "f" (.str [.plain "v"]))) =
    "not f = \"v\"" := by decide

example : quote_field "a.." = field_quote ++ "a.." ++ field_quote := by decide

example : quote_field "ProcessName" = "ProcessName" := by decide

end SentinelOnePQ
